import Mathlib

/-!
Shallow embedding of the NestJS custom-provider tutorial repository.

Sources embedded:
- src/src/config/dev-config.service.ts: DevConfigService, ProdConfigService
- src/src/app.controller.ts: AppController and its getHello method
- src/src/app.controller.spec.ts: the stub providers used by the unit test
- src/unnamed/part_000 (app.module.ts): the four custom provider
  declarations and the module provider list
- src/custom-provider.md: ConfigService, LoggerService, AppConfig,
  DatabaseConnection, OptionsProvider (their code is quoted verbatim in
  that document)

TypeScript values that may be undefined at runtime are modelled as
Option; string template interpolation of a possibly-undefined value is
modelled by tsInterpolate, which renders none as the text "undefined"
exactly as JavaScript does. Methods with side effects (console logging,
the factory calling connect) return an explicit trace of events next to
their result, and a method on an object returns the post-state of the
object explicitly.
-/

/-- JavaScript primitive value: a string or a number. Used to state which
fields of a configuration literal hold strings. -/
inductive JsValue where
  | str (s : String)
  | num (n : Int)
  deriving DecidableEq, Repr

/-- Whether a JsValue is a string. -/
def JsValue.isString : JsValue → Bool
  | .str _ => true
  | .num _ => false

/-- JavaScript template-literal interpolation of a string-or-undefined
value: undefined is rendered as the text "undefined". -/
def tsInterpolate : Option String → String
  | some s => s
  | none => "undefined"

/-- Abstract class ConfigService from src/config/config.service.ts: a
single method get taking a key. The runtime value of a lookup that
misses is undefined, hence Option String. -/
structure ConfigService where
  get : String → Option String

/-- DevConfigService (src/src/config/dev-config.service.ts): a lookup in
the object literal with own properties host = 'localhost' and
port = '3000'; any other key yields undefined. -/
def DevConfigService : ConfigService :=
  ⟨fun key =>
    if key = "host" then some "localhost"
    else if key = "port" then some "3000"
    else none⟩

/-- ProdConfigService (src/src/config/dev-config.service.ts): a lookup in
the object literal with own properties host = 'prod.example.com' and
port = '80'; any other key yields undefined. -/
def ProdConfigService : ConfigService :=
  ⟨fun key =>
    if key = "host" then some "prod.example.com"
    else if key = "port" then some "80"
    else none⟩

/-- AppService interface as used by the controller: a getHello method
with no arguments returning a string, modelled by its return value. -/
structure AppService where
  getHello : String

/-- LoggerService interface as used by the controller: a log method; its
result is the list of console lines it emits. -/
structure LoggerService where
  log : String → List String

/-- Concrete LoggerService from src/logger/logger.service.ts (quoted in
custom-provider.md): log(message) prints 'LOG:' followed by the
message. -/
def loggerServiceImpl : LoggerService :=
  ⟨fun message => ["LOG: " ++ message]⟩

/-- AppController (src/src/app.controller.ts): three injected
dependencies held in readonly fields. -/
structure AppController where
  appService : AppService
  configService : ConfigService
  logger : LoggerService

/-- Body of AppController.getHello as explicit state passing: it logs,
looks up 'host' in the config service, and returns the greeting
concatenated with ' - Config Host: ' and the interpolated host, the
console lines emitted, and the post-state of the controller. The body
assigns no field, so the post-state is the receiver unchanged. -/
def AppController.getHelloCall (c : AppController) :
    (String × List String) × AppController :=
  let logs := c.logger.log "getHello() が呼ばれました"
  let host := c.configService.get "host"
  ((c.appService.getHello ++ " - Config Host: " ++ tsInterpolate host, logs), c)

/-- Return value and console output of one call of
AppController.getHello. -/
def AppController.getHello (c : AppController) : String × List String :=
  (c.getHelloCall).1

/-- Stub ConfigService installed by the unit test
(src/src/app.controller.spec.ts): get yields 'localhost' for the key
'host' and undefined for every other key. -/
def testConfigStub : ConfigService :=
  ⟨fun key => if key = "host" then some "localhost" else none⟩

/-- Stub logger installed by the unit test: log emits nothing. -/
def testLoggerStub : LoggerService :=
  ⟨fun _ => []⟩

/-- Class provider expression of configServiceProvider in app.module.ts:
the useClass ternary on process.env.NODE_ENV, which is a string or
undefined. It picks ProdConfigService exactly on 'production'. -/
def configServiceUseClass (nodeEnv : Option String) : ConfigService :=
  if nodeEnv = some "production" then ProdConfigService else DevConfigService

/-- AppConfig from src/config/app.config.ts as quoted in
custom-provider.md: port is the number 3000, host the string
'localhost', apiEndpoint the string '/api'. -/
structure AppConfigRecord where
  port : JsValue
  host : JsValue
  apiEndpoint : JsValue
  deriving DecidableEq, Repr

/-- Value of the AppConfig constant. -/
def AppConfig : AppConfigRecord :=
  ⟨JsValue.num 3000, JsValue.str "localhost", JsValue.str "/api"⟩

/-- Options literal type returned by OptionsProvider.get. -/
structure DbOptions where
  host : String
  port : Int
  deriving DecidableEq, Repr

/-- Events observable during provider construction: a call of
OptionsProvider.get, and a call of DatabaseConnection.connect on a
connection holding the given options (connect prints the options to the
console). -/
inductive FactoryEvent where
  | optionsGetCalled
  | connectCalled (options : DbOptions)
  deriving DecidableEq, Repr

/-- Whether an event is a connect call. -/
def FactoryEvent.isConnectCalled : FactoryEvent → Bool
  | .connectCalled _ => true
  | _ => false

/-- OptionsProvider.get from src/database/options.provider.ts (quoted in
custom-provider.md): returns the literal with host 'localhost' and port
5432, and records the call. -/
def OptionsProvider.get : DbOptions × List FactoryEvent :=
  (⟨"localhost", 5432⟩, [FactoryEvent.optionsGetCalled])

/-- DatabaseConnection from src/database/database.connection.ts (quoted
in custom-provider.md): holds the options given to its constructor. -/
structure DatabaseConnection where
  options : DbOptions
  deriving DecidableEq, Repr

/-- DatabaseConnection.connect: prints the options (recorded as an
event) and returns true. No field is assigned. -/
def DatabaseConnection.connect (c : DatabaseConnection) :
    Bool × List FactoryEvent :=
  (true, [FactoryEvent.connectCalled c.options])

/-- Factory function of connectionProvider in app.module.ts: obtains the
options from OptionsProvider.get, constructs a DatabaseConnection from
them, calls connect on it (discarding the boolean), and returns the
connection together with the trace of events in order. -/
def connectionFactory : DatabaseConnection × List FactoryEvent :=
  let optionsCall := OptionsProvider.get
  let connection : DatabaseConnection := ⟨optionsCall.1⟩
  let connectCall := connection.connect
  (connection, optionsCall.2 ++ connectCall.2)

/-- Instances the AppModule container can hold, one constructor per
concrete provider target. -/
inductive Resolved where
  | appServiceInst
  | optionsProviderInst
  | dbConnectionInst (conn : DatabaseConnection)
  | devConfigInst
  | prodConfigInst
  | appConfigInst (v : AppConfigRecord)
  | loggerServiceInst
  deriving DecidableEq, Repr

/-- Binding strategies of the providers declared in app.module.ts. The
value held by useValueP, useClassP and useFactoryP is the singleton
instance the container binds to the token; useExistingP delegates to
another token. -/
inductive ProviderSpec where
  | useValueP (v : Resolved)
  | useClassP (v : Resolved)
  | useFactoryP (v : Resolved)
  | useExistingP (target : String)
  deriving DecidableEq, Repr

/-- Provider list of AppModule (src/unnamed/part_000), with class tokens
named by their class. The ConfigService binding is the useClass ternary
on NODE_ENV; DATABASE_CONNECTION is the factory result; APP_CONFIG is
the AppConfig constant via useValue; ALIAS_LOGGER delegates to
LoggerService via useExisting. -/
def appModuleProviders (nodeEnv : Option String) :
    List (String × ProviderSpec) :=
  [("AppService", ProviderSpec.useClassP Resolved.appServiceInst),
   ("OptionsProvider", ProviderSpec.useClassP Resolved.optionsProviderInst),
   ("DATABASE_CONNECTION",
     ProviderSpec.useFactoryP (Resolved.dbConnectionInst connectionFactory.1)),
   ("ConfigService",
     ProviderSpec.useClassP
       (if nodeEnv = some "production" then Resolved.prodConfigInst
        else Resolved.devConfigInst)),
   ("APP_CONFIG", ProviderSpec.useValueP (Resolved.appConfigInst AppConfig)),
   ("LoggerService", ProviderSpec.useClassP Resolved.loggerServiceInst),
   ("ALIAS_LOGGER", ProviderSpec.useExistingP "LoggerService")]

/-- Token resolution over a provider list: value, class and factory
providers yield their singleton instance; useExisting resolves its
target token, with fuel bounding the alias chain. -/
def resolveWith : Nat → List (String × ProviderSpec) → String → Option Resolved
  | 0, _, _ => none
  | Nat.succ fuel, ps, tok =>
    match ps.find? (fun p => p.1 = tok) with
    | some (_, ProviderSpec.useValueP v) => some v
    | some (_, ProviderSpec.useClassP v) => some v
    | some (_, ProviderSpec.useFactoryP v) => some v
    | some (_, ProviderSpec.useExistingP t) => resolveWith fuel ps t
    | none => none

/-- Resolution of a token in the AppModule container under a given
NODE_ENV. -/
def resolve (nodeEnv : Option String) (tok : String) : Option Resolved :=
  resolveWith 8 (appModuleProviders nodeEnv) tok

/-- Logger instance injected into AppController: the controller requests
the token ALIAS_LOGGER. -/
def appControllerInjectedLogger (nodeEnv : Option String) : Option Resolved :=
  resolve nodeEnv "ALIAS_LOGGER"

/-- Lemma: the two config service implementations are distinct objects,
as witnessed by their host values. -/
theorem devConfig_ne_prodConfig : DevConfigService ≠ ProdConfigService := by
  intro h
  have := congrArg (fun s => ConfigService.get s "host") h
  simp [DevConfigService, ProdConfigService] at this

/-- C1: when the injected ConfigService is the test stub (get 'host' =
'localhost', every other key undefined) and appService.getHello yields
'Hello World!', AppController.getHello returns exactly
"Hello World! - Config Host: localhost". -/
theorem getHello_with_test_stub (c : AppController)
    (hsvc : c.appService.getHello = "Hello World!")
    (hcfg : c.configService = testConfigStub) :
    (c.getHello).1 = "Hello World! - Config Host: localhost" := by
  simp [AppController.getHello, AppController.getHelloCall, hsvc, hcfg,
    testConfigStub, tsInterpolate]

/-- Witness for C1: the controller assembled by the unit test. -/
theorem getHello_with_test_stub_witness :
    (AppController.getHello
      ⟨⟨"Hello World!"⟩, testConfigStub, testLoggerStub⟩).1 =
      "Hello World! - Config Host: localhost" :=
  getHello_with_test_stub ⟨⟨"Hello World!"⟩, testConfigStub, testLoggerStub⟩
    rfl rfl

/-- C2: for every injected AppService, ConfigService and logger, the
response of AppController.getHello is the greeting concatenated with
' - Config Host: ' and the interpolation of the configuration lookup for
the key 'host'. -/
theorem getHello_concatenation (c : AppController) :
    (c.getHello).1 =
      c.appService.getHello ++ " - Config Host: " ++
        tsInterpolate (c.configService.get "host") := by
  simp [AppController.getHello, AppController.getHelloCall]

/-- C3: the class provider selects ProdConfigService exactly when
NODE_ENV equals 'production', and DevConfigService for every other value
of NODE_ENV, including its absence. -/
theorem configServiceUseClass_switch :
    (∀ nodeEnv : Option String,
      configServiceUseClass nodeEnv = ProdConfigService ↔
        nodeEnv = some "production") ∧
    (∀ nodeEnv : Option String, nodeEnv ≠ some "production" →
      configServiceUseClass nodeEnv = DevConfigService) ∧
    configServiceUseClass none = DevConfigService := by
  refine ⟨fun nodeEnv => ?_, fun nodeEnv h => ?_, ?_⟩
  · by_cases h : nodeEnv = some "production"
    · simp [configServiceUseClass, h]
    · simp [configServiceUseClass, h]
      exact fun heq => devConfig_ne_prodConfig heq
  · simp [configServiceUseClass, h]
  · simp [configServiceUseClass]

/-- Witness for C3: NODE_ENV set to 'development' selects the dev
implementation, and 'production' selects the prod implementation. -/
theorem configServiceUseClass_switch_witness :
    configServiceUseClass (some "development") = DevConfigService ∧
    configServiceUseClass (some "production") = ProdConfigService :=
  ⟨configServiceUseClass_switch.2.1 (some "development") (by decide),
   (configServiceUseClass_switch.1 (some "production")).mpr rfl⟩

/-- C4: the two strategy objects bind 'host' and 'port' to
'localhost'/'3000' (dev) and 'prod.example.com'/'80' (prod), and for
every key outside these two the results of DevConfigService.get and
ProdConfigService.get coincide. -/
theorem devProd_differ_only_on_host_port :
    DevConfigService.get "host" = some "localhost" ∧
    DevConfigService.get "port" = some "3000" ∧
    ProdConfigService.get "host" = some "prod.example.com" ∧
    ProdConfigService.get "port" = some "80" ∧
    ∀ key : String, key ≠ "host" → key ≠ "port" →
      DevConfigService.get key = ProdConfigService.get key := by
  refine ⟨rfl, rfl, rfl, rfl, fun key h1 h2 => ?_⟩
  simp [DevConfigService, ProdConfigService, h1, h2]

/-- Witness for C4: on the key 'apiEndpoint', outside the differing
pair, both implementations agree (both return undefined). -/
theorem devProd_differ_only_on_host_port_witness :
    DevConfigService.get "apiEndpoint" = ProdConfigService.get "apiEndpoint" :=
  devProd_differ_only_on_host_port.2.2.2.2 "apiEndpoint" (by decide) (by decide)

/-- C5 counterexample: the port field of the AppConfig constant is not a
string; the source literal binds port to the number 3000. -/
theorem appConfig_port_not_string :
    (AppConfig.port).isString = false := by decide

/-- C5 amended: AppConfig binds host to the string 'localhost',
apiEndpoint to the string '/api', and port to the number 3000 (not a
string), and the APP_CONFIG token is bound via useValue to exactly this
constant under every NODE_ENV. -/
theorem appConfig_value_binding :
    AppConfig.host = JsValue.str "localhost" ∧
    AppConfig.apiEndpoint = JsValue.str "/api" ∧
    AppConfig.port = JsValue.num 3000 ∧
    ∀ nodeEnv : Option String,
      resolve nodeEnv "APP_CONFIG" = some (Resolved.appConfigInst AppConfig) :=
  ⟨rfl, rfl, rfl, fun _ => rfl⟩

/-- C6: under every NODE_ENV, resolving ALIAS_LOGGER and resolving
LoggerService yield the same instance, namely the LoggerService
singleton, and that is the logger injected into AppController. -/
theorem aliasLogger_resolves_to_loggerService :
    ∀ nodeEnv : Option String,
      resolve nodeEnv "ALIAS_LOGGER" = resolve nodeEnv "LoggerService" ∧
      resolve nodeEnv "ALIAS_LOGGER" = some Resolved.loggerServiceInst ∧
      appControllerInjectedLogger nodeEnv = some Resolved.loggerServiceInst :=
  fun _ => ⟨rfl, rfl, rfl⟩

/-- C7: OptionsProvider.get returns the literal with host 'localhost'
and port 5432; the DATABASE_CONNECTION factory calls it exactly once,
passes its result unchanged to the DatabaseConnection constructor, and
the container binds the factory result to the token under every
NODE_ENV. -/
theorem optionsProvider_literal_consumed_by_factory :
    (OptionsProvider.get).1 = ⟨"localhost", 5432⟩ ∧
    connectionFactory.1.options = (OptionsProvider.get).1 ∧
    connectionFactory.2.count FactoryEvent.optionsGetCalled = 1 ∧
    ∀ nodeEnv : Option String,
      resolve nodeEnv "DATABASE_CONNECTION" =
        some (Resolved.dbConnectionInst connectionFactory.1) :=
  ⟨rfl, rfl, by decide, fun _ => rfl⟩

/-- C8: for every key outside the pair host/port, both config service
implementations return undefined rather than a string; consequently a
controller whose configured 'host' lookup misses embeds the text
'undefined' in its response. -/
theorem missing_key_undefined_propagates :
    (∀ key : String, key ≠ "host" → key ≠ "port" →
      DevConfigService.get key = none ∧ ProdConfigService.get key = none) ∧
    (∀ c : AppController, c.configService.get "host" = none →
      (c.getHello).1 =
        c.appService.getHello ++ " - Config Host: " ++ "undefined") := by
  refine ⟨fun key h1 h2 => ?_, fun c h => ?_⟩
  · simp [DevConfigService, ProdConfigService, h1, h2]
  · simp [AppController.getHello, AppController.getHelloCall, h, tsInterpolate]

/-- Witness for C8: the key 'apiEndpoint' misses in both
implementations, and a controller with an empty configuration responds
with the text 'undefined' embedded. -/
theorem missing_key_undefined_propagates_witness :
    DevConfigService.get "apiEndpoint" = none ∧
    (AppController.getHello
      ⟨⟨"Hello World!"⟩, ⟨fun _ => none⟩, testLoggerStub⟩).1 =
      "Hello World!" ++ " - Config Host: " ++ "undefined" :=
  ⟨(missing_key_undefined_propagates.1 "apiEndpoint" (by decide) (by decide)).1,
   missing_key_undefined_propagates.2
     ⟨⟨"Hello World!"⟩, ⟨fun _ => none⟩, testLoggerStub⟩ rfl⟩

/-- C9: DatabaseConnection.connect always returns true; the factory
emits exactly one connect call, performed on the freshly constructed
connection (the one it returns) before returning it, after the single
options lookup. -/
theorem factory_connects_once :
    (∀ c : DatabaseConnection, (c.connect).1 = true) ∧
    connectionFactory.2.countP (fun e => e.isConnectCalled) = 1 ∧
    connectionFactory.2 =
      [FactoryEvent.optionsGetCalled,
       FactoryEvent.connectCalled connectionFactory.1.options] :=
  ⟨fun _ => rfl, by decide, rfl⟩

/-- C10: one call of getHello leaves the controller's fields unchanged;
the response string depends only on the injected AppService and
ConfigService, not on the logger; and a second call from the post-state
returns the same string as the first. -/
theorem getHello_deterministic_readonly :
    (∀ c : AppController, (c.getHelloCall).2 = c) ∧
    (∀ c c' : AppController, c.appService = c'.appService →
      c.configService = c'.configService →
      (c.getHello).1 = (c'.getHello).1) ∧
    (∀ c : AppController,
      (((c.getHelloCall).2).getHello).1 = (c.getHello).1) := by
  refine ⟨fun c => rfl, fun c c' h1 h2 => ?_, fun c => rfl⟩
  simp [AppController.getHello, AppController.getHelloCall, h1, h2]

/-- Witness for C10: two controllers sharing services but holding
different loggers (the silent test stub and the console logger) return
the same response string. -/
theorem getHello_deterministic_readonly_witness :
    (AppController.getHello
      ⟨⟨"Hello World!"⟩, testConfigStub, testLoggerStub⟩).1 =
    (AppController.getHello
      ⟨⟨"Hello World!"⟩, testConfigStub, loggerServiceImpl⟩).1 :=
  getHello_deterministic_readonly.2.1
    ⟨⟨"Hello World!"⟩, testConfigStub, testLoggerStub⟩
    ⟨⟨"Hello World!"⟩, testConfigStub, loggerServiceImpl⟩ rfl rfl
